import Mathlib

/-!
Shallow embedding of the Elarus translation gateway (src/main.js) and proofs
about its translation request pipeline: input validation, cache-key
derivation, cache lookup and population, the upstream call with
retry/backoff, and response shaping.
-/

/-! ## Configuration constants (src/main.js lines 12-18) -/

def GROQ_MODEL : String := "openai/gpt-oss-120b"

def CACHE_EXPIRY_SECONDS : Nat := 60 * 60 * 24 * 7

def MAX_RETRIES : Nat := 5

def BASE_DELAY : Nat := 1000

def MAX_TEXT_LENGTH : Nat := 2000

/-! ## JavaScript string semantics

`jsWhitespaceChar` is the ECMAScript WhiteSpace / LineTerminator set used by
both `String.prototype.trim` and the regex class `\s`.  `jsLength` is the
JavaScript `.length` of a string, counted in UTF-16 code units. -/

def jsWhitespaceChar (c : Char) : Bool :=
  c = ' ' || c = '\t' || c = '\n' || c = '\r' ||
  c.toNat = 0x0B || c.toNat = 0x0C || c.toNat = 0xA0 || c.toNat = 0x1680 ||
  (0x2000 ≤ c.toNat && c.toNat ≤ 0x200A) || c.toNat = 0x2028 ||
  c.toNat = 0x2029 || c.toNat = 0x202F || c.toNat = 0x205F ||
  c.toNat = 0x3000 || c.toNat = 0xFEFF

def jsTrim (s : String) : String :=
  String.mk (((s.data.dropWhile jsWhitespaceChar).reverse.dropWhile
    jsWhitespaceChar).reverse)

def jsLength (s : String) : Nat :=
  (s.data.map (fun c => if 0x10000 ≤ c.toNat then 2 else 1)).sum

/-- One character of the regex class `[A-Za-z\s\-]` from
`/^[A-Za-z\s\-]+$/` in `validateInput`. -/
def langCharOk (c : Char) : Bool :=
  c.isAlpha || jsWhitespaceChar c || c = '-'

/-- `/^[A-Za-z\s\-]+$/.test s`: at least one character, every character in
the class. -/
def langFormatTest (s : String) : Bool :=
  !(s = "") && s.data.all langCharOk

/-! ## Error type (src/main.js class TranslationError) -/

structure TranslationError where
  message : String
  statusCode : Nat
  details : Option String
  deriving Repr, DecidableEq

/-! ## validateInput (src/main.js lines 66-99)

The request body is `none` for an absent / non-JSON body; the `text` and
`target_lang` fields are `Option String`, `none` standing for a missing
field (the code falls back to the empty string via `|| ''`). -/

structure RequestBody where
  text : Option String
  target_lang : Option String
  deriving Repr, DecidableEq

def validateInput (data : Option RequestBody) :
    Except TranslationError (String × String) :=
  match data with
  | none => .error ⟨"Request must be JSON", 400, none⟩
  | some d =>
    let text := jsTrim (d.text.getD "")
    let targetLang := jsTrim (d.target_lang.getD "")
    if MAX_TEXT_LENGTH < jsLength text then
      .error ⟨"Text too long. Maximum " ++ toString MAX_TEXT_LENGTH ++
                " characters.", 400,
              some ("Text length: " ++ toString (jsLength text) ++
                " characters")⟩
    else if text = "" then
      .error ⟨"Text cannot be empty", 400, none⟩
    else if targetLang = "" then
      .error ⟨"Target language cannot be empty", 400, none⟩
    else if !(langFormatTest targetLang) then
      .error ⟨"Invalid target language format", 400,
              some "Use only letters, spaces, and hyphens"⟩
    else
      .ok (text, targetLang)

/-- Whether a validation outcome is specifically the text-too-long
rejection of `validateInput`. -/
def isTooLongError (r : Except TranslationError (String × String)) : Bool :=
  match r with
  | .error e => e.message = "Text too long. Maximum 2000 characters."
  | .ok _ => false

instance {ε α : Type} [DecidableEq ε] [DecidableEq α] :
    DecidableEq (Except ε α) := fun a b =>
  match a, b with
  | .ok x, .ok y => decidable_of_iff (x = y) (by simp)
  | .error x, .error y => decidable_of_iff (x = y) (by simp)
  | .ok _, .error _ => isFalse (by simp)
  | .error _, .ok _ => isFalse (by simp)

example : validateInput (some ⟨some " hi ", some "Spanish"⟩) =
    .ok ("hi", "Spanish") := by decide

example : validateInput (some ⟨some "hi", some "Sp4nish"⟩) =
    .error ⟨"Invalid target language format", 400,
            some "Use only letters, spaces, and hyphens"⟩ := by decide

/-! ## getSourceLanguage (src/main.js lines 101-124)

The `franc` library call is external: its outcome is an environment
parameter, `.ok code` when `franc(text)` returns `code` and `.error ()`
when it throws. -/

def languageMap : List (String × String) :=
  [("eng", "EN"), ("spa", "ES"), ("fra", "FR"), ("deu", "DE"),
   ("ita", "IT"), ("por", "PT"), ("rus", "RU"), ("jpn", "JA"),
   ("kor", "KO"), ("zho", "ZH"), ("ara", "AR")]

/-- JavaScript `toUpperCase` on the ASCII language codes `franc`
produces. -/
def jsToUpper (s : String) : String :=
  String.mk (s.data.map Char.toUpper)

def getSourceLanguage (francOutcome : Except Unit String) : String :=
  match francOutcome with
  | .error _ => "Unknown"
  | .ok langCode =>
    match languageMap.lookup langCode with
    | some readable => readable
    | none => jsToUpper langCode

example : getSourceLanguage (.ok "eng") = "EN" := by decide

example : getSourceLanguage (.ok "nld") = "NLD" := by decide

/-! ## callGroqApiWithBackoff (src/main.js lines 128-184)

One attempt observes an `AttemptResp` from the network: a non-ok HTTP
status, or a parsed JSON body.  The `choices` list is `none` when `data`
or `data.choices` is falsy or absent, and the empty list when
`choices.length` is `0`; each element is the `message.content` string of
one choice. -/

inductive AttemptResp where
  | httpErr (status : Nat)
  | ok (choices : Option (List String))
  deriving Repr, DecidableEq

inductive UpstreamErr where
  | httpError (status : Nat)
  | emptyTranslation
  | unparseable
  | maxRetries
  deriving Repr, DecidableEq

/-- The `error.message` string thrown for each failure
(src/main.js lines 145, 157, 163, 183). -/
def upstreamErrMessage : UpstreamErr → String
  | .httpError status => "HTTP error! status: " ++ toString status
  | .emptyTranslation => "LLM returned empty translation text."
  | .unparseable => "API returned unparseable response structure."
  | .maxRetries => "Translation failed after maximum retries."

/-- The body of one iteration of the retry loop up to the `catch`: accept
the first choice when its trimmed content is non-empty, otherwise fail
with the error the `try` block throws. -/
def attemptEval : AttemptResp → Except UpstreamErr String
  | .httpErr status => .error (.httpError status)
  | .ok none => .error .unparseable
  | .ok (some []) => .error .unparseable
  | .ok (some (c :: _)) =>
    let translatedText := jsTrim c
    if translatedText = "" then .error .emptyTranslation
    else .ok translatedText

structure BackoffTrace where
  attemptsMade : Nat
  sleeps : List Nat
  result : Except UpstreamErr String
  deriving Repr, DecidableEq

/-- The `for` loop of `callGroqApiWithBackoff`: `remaining` counts the
iterations left out of `MAX_RETRIES`, `attempt` the current index,
`currentDelay` the next sleep, `sleeps` the delays already slept.  The
`remaining = 0` case is the `throw` after the loop. -/
def backoffLoop (env : Nat → AttemptResp) :
    Nat → Nat → Nat → List Nat → BackoffTrace
  | 0, attempt, _, sleeps =>
    ⟨attempt, sleeps, .error .maxRetries⟩
  | remaining + 1, attempt, currentDelay, sleeps =>
    match attemptEval (env attempt) with
    | .ok translatedText => ⟨attempt + 1, sleeps, .ok translatedText⟩
    | .error e =>
      if attempt < MAX_RETRIES - 1 then
        backoffLoop env remaining (attempt + 1) (currentDelay * 2)
          (sleeps ++ [currentDelay])
      else
        ⟨attempt + 1, sleeps, .error e⟩

def callGroqApiWithBackoff (env : Nat → AttemptResp) : BackoffTrace :=
  backoffLoop env MAX_RETRIES 0 BASE_DELAY []

example :
    callGroqApiWithBackoff (fun i => if i < 4 then .httpErr 500
      else .ok (some ["hola"])) =
    ⟨5, [1000, 2000, 4000, 8000], .ok "hola"⟩ := by decide

example :
    callGroqApiWithBackoff (fun _ => .httpErr 503) =
    ⟨5, [1000, 2000, 4000, 8000], .error (.httpError 503)⟩ := by decide

example :
    callGroqApiWithBackoff (fun _ => .ok (some ["ciao"])) =
    ⟨1, [], .ok "ciao"⟩ := by decide

/-! ## processTranslation (src/main.js lines 186-243)

The Redis client and the network are environment parameters: whether the
client handle is non-null, what a `get` on the cache key observes, whether
a `setEx` on it succeeds, what `franc` returns, and the response of each
upstream attempt.  The trace records the externally visible effects:
whether a cache `get` was issued, every `setEx` issued (key, ttl, entry),
whether an issued `setEx` raised, how many upstream attempts ran and what
was slept between them, and the value returned or error thrown. -/

structure CacheEntry where
  source_language : String
  translated_text : String
  timestamp : Nat
  model : String
  deriving Repr, DecidableEq

inductive CacheReadOutcome where
  | err
  | miss
  | hit (entry : CacheEntry)
  deriving Repr, DecidableEq

inductive CacheWriteOutcome where
  | err
  | ok
  deriving Repr, DecidableEq

structure PipelineEnv where
  redisAvailable : Bool
  cacheRead : CacheReadOutcome
  cacheWrite : CacheWriteOutcome
  francOutcome : Except Unit String
  upstream : Nat → AttemptResp
  now : Nat

structure TranslationResult where
  source_language : String
  target_language : String
  translated_text : String
  status : String
  deriving Repr, DecidableEq

structure PipelineTrace where
  cacheReadAttempted : Bool
  setExCalls : List (String × Nat × CacheEntry)
  cacheWriteFailed : Bool
  upstreamAttempts : Nat
  sleeps : List Nat
  result : Except TranslationError TranslationResult
  deriving Repr, DecidableEq

def cacheKey (textToTranslate targetLang : String) : String :=
  "translation:" ++ textToTranslate ++ "|" ++ targetLang

/-- The `catch` of `processTranslation` (src/main.js lines 245-266),
re-classifying the error thrown by `callGroqApiWithBackoff`. -/
def classifyUpstreamError : UpstreamErr → TranslationError
  | .httpError status =>
    ⟨"Groq API Error (" ++ toString status ++ ")", status,
     some (upstreamErrMessage (.httpError status))⟩
  | .emptyTranslation =>
    ⟨"The model struggled to generate a translation. The input may be too short or ambiguous.",
     400, some (upstreamErrMessage .emptyTranslation)⟩
  | .unparseable =>
    ⟨"An internal server error occurred", 500,
     some (upstreamErrMessage .unparseable)⟩
  | .maxRetries =>
    ⟨"An internal server error occurred", 500,
     some (upstreamErrMessage .maxRetries)⟩

/-- The part of `processTranslation` after the cache check: the upstream
call, the best-effort `setEx`, and response shaping. -/
def translateUncached (textToTranslate targetLang : String)
    (env : PipelineEnv) (statusType : String) (readAttempted : Bool) :
    PipelineTrace :=
  let sourceLanguageCode := getSourceLanguage env.francOutcome
  let key := cacheKey textToTranslate targetLang
  let bt := callGroqApiWithBackoff env.upstream
  match bt.result with
  | .ok translatedText =>
    let cacheData : CacheEntry :=
      ⟨sourceLanguageCode, translatedText, env.now, GROQ_MODEL⟩
    { cacheReadAttempted := readAttempted
      setExCalls :=
        if env.redisAvailable then [(key, CACHE_EXPIRY_SECONDS, cacheData)]
        else []
      cacheWriteFailed := env.redisAvailable && env.cacheWrite = .err
      upstreamAttempts := bt.attemptsMade
      sleeps := bt.sleeps
      result := .ok ⟨sourceLanguageCode, targetLang, translatedText,
        statusType⟩ }
  | .error e =>
    { cacheReadAttempted := readAttempted
      setExCalls := []
      cacheWriteFailed := false
      upstreamAttempts := bt.attemptsMade
      sleeps := bt.sleeps
      result := .error (classifyUpstreamError e) }

def processTranslation (textToTranslate targetLang : String)
    (env : PipelineEnv) (forceRefresh : Bool) : PipelineTrace :=
  let statusType := if forceRefresh then "regenerated" else "generated"
  if !forceRefresh && env.redisAvailable then
    match env.cacheRead with
    | .hit cachedResult =>
      { cacheReadAttempted := true
        setExCalls := []
        cacheWriteFailed := false
        upstreamAttempts := 0
        sleeps := []
        result := .ok ⟨cachedResult.source_language, targetLang,
          cachedResult.translated_text, "cached"⟩ }
    | .miss => translateUncached textToTranslate targetLang env statusType true
    | .err => translateUncached textToTranslate targetLang env statusType true
  else
    translateUncached textToTranslate targetLang env statusType false

/-! ## Route handlers (src/main.js lines 311-341) and error middleware
(lines 269-285) -/

def handleTranslationPost (apiKey : String) (body : Option RequestBody)
    (env : PipelineEnv) (forceRefresh : Bool) : PipelineTrace :=
  if apiKey = "" then
    { cacheReadAttempted := false, setExCalls := [], cacheWriteFailed := false,
      upstreamAttempts := 0, sleeps := [],
      result := .error ⟨"API key not configured", 500, none⟩ }
  else
    match validateInput body with
    | .error e =>
      { cacheReadAttempted := false, setExCalls := [],
        cacheWriteFailed := false, upstreamAttempts := 0, sleeps := [],
        result := .error e }
    | .ok (text, targetLang) =>
      processTranslation text targetLang env forceRefresh

def postApiTranslate (apiKey : String) (body : Option RequestBody)
    (env : PipelineEnv) : PipelineTrace :=
  handleTranslationPost apiKey body env false

def postApiRetranslate (apiKey : String) (body : Option RequestBody)
    (env : PipelineEnv) : PipelineTrace :=
  handleTranslationPost apiKey body env true

/-- The HTTP status of the response: `res.json` sends `200`, the error
middleware sends `error.statusCode`. -/
def responseStatus (trace : PipelineTrace) : Nat :=
  match trace.result with
  | .ok _ => 200
  | .error e => e.statusCode

/-! ## GET /api/health (src/main.js lines 288-309) -/

inductive JsonValue where
  | s (v : String)
  | n (v : Nat)
  deriving Repr, DecidableEq

/-- The JSON body `healthStatus`, as the ordered field list the handler
builds.  `redisAvailable` is whether the client handle is non-null and
`pingOk` whether `redisClient.ping()` succeeds. -/
def healthBody (redisAvailable pingOk : Bool) (apiKey : String)
    (now : Nat) : List (String × JsonValue) :=
  [("status", .s "healthy"),
   ("redis", .s (if redisAvailable && pingOk then "connected"
     else "disconnected")),
   ("groq_api", .s (if apiKey = "" then "not_configured" else "configured")),
   ("max_text_length", .n MAX_TEXT_LENGTH),
   ("rate_limit", .s "1 second(s)"),
   ("timestamp", .n now)]

/-- `/api/health` always answers via `res.json`, hence status 200. -/
def healthResponse (redisAvailable pingOk : Bool) (apiKey : String)
    (now : Nat) : Nat × List (String × JsonValue) :=
  (200, healthBody redisAvailable pingOk apiKey now)

def hasField (body : List (String × JsonValue)) (key : String) : Bool :=
  body.any (fun p => p.1 = key)

/-- Whether an `Except` outcome is a success, the shape shared by every
per-attempt and per-request result. -/
def isOkB {ε α : Type} : Except ε α → Bool
  | .ok _ => true
  | .error _ => false

/-- The upstream acceptance condition exactly as the spec sentence words
it — at least one choice anywhere in the list with non-empty post-trim
content — for comparison with `attemptEval`, which only inspects the
first choice. -/
def specContainsNonEmptyChoice : AttemptResp → Bool
  | .ok (some cs) => cs.any (fun c => !(jsTrim c = ""))
  | _ => false

/-! ## Helper lemmas about the retry loop -/

lemma backoffLoop_step_error (env : Nat → AttemptResp) (r attempt d : Nat)
    (s : List Nat) (e : UpstreamErr)
    (he : attemptEval (env attempt) = .error e)
    (hlt : attempt < MAX_RETRIES - 1) :
    backoffLoop env (r + 1) attempt d s =
      backoffLoop env r (attempt + 1) (d * 2) (s ++ [d]) := by
  simp [backoffLoop, he, hlt]

lemma backoffLoop_step_ok (env : Nat → AttemptResp) (r attempt d : Nat)
    (s : List Nat) (t : String)
    (ht : attemptEval (env attempt) = .ok t) :
    backoffLoop env (r + 1) attempt d s = ⟨attempt + 1, s, .ok t⟩ := by
  simp [backoffLoop, ht]

lemma backoffLoop_last_error (env : Nat → AttemptResp) (r attempt d : Nat)
    (s : List Nat) (e : UpstreamErr)
    (he : attemptEval (env attempt) = .error e)
    (hge : ¬ attempt < MAX_RETRIES - 1) :
    backoffLoop env (r + 1) attempt d s = ⟨attempt + 1, s, .error e⟩ := by
  simp [backoffLoop, he, hge]

lemma backoffLoop_attemptsMade_le (env : Nat → AttemptResp) :
    ∀ (r attempt d : Nat) (s : List Nat),
      (backoffLoop env r attempt d s).attemptsMade ≤ attempt + r := by
  intro r
  induction r with
  | zero => intro attempt d s; simp [backoffLoop]
  | succ n ih =>
    intro attempt d s
    rw [backoffLoop]
    cases h : attemptEval (env attempt) with
    | ok t => simp
    | error e =>
      simp only
      split
      · calc (backoffLoop env n (attempt + 1) (d * 2) (s ++ [d])).attemptsMade
            ≤ (attempt + 1) + n := ih (attempt + 1) (d * 2) (s ++ [d])
          _ ≤ attempt + (n + 1) := by omega
      · simp

/-- After four failed attempts, the loop stands at attempt index 4 having
slept 1s, 2s, 4s and 8s. -/
lemma backoff_four_failures (env : Nat → AttemptResp)
    (hfail : ∀ i, i < 4 → ∃ e, attemptEval (env i) = .error e) :
    callGroqApiWithBackoff env =
      backoffLoop env 1 4 16000 [1000, 2000, 4000, 8000] := by
  obtain ⟨e0, h0⟩ := hfail 0 (by norm_num)
  obtain ⟨e1, h1⟩ := hfail 1 (by norm_num)
  obtain ⟨e2, h2⟩ := hfail 2 (by norm_num)
  obtain ⟨e3, h3⟩ := hfail 3 (by norm_num)
  show backoffLoop env (4 + 1) 0 BASE_DELAY [] = _
  rw [backoffLoop_step_error env 4 0 BASE_DELAY [] e0 h0 (by decide)]
  norm_num [BASE_DELAY]
  rw [show (4 : Nat) = 3 + 1 from rfl,
    backoffLoop_step_error env 3 1 2000 [1000] e1 h1 (by decide)]
  norm_num
  rw [show (3 : Nat) = 2 + 1 from rfl,
    backoffLoop_step_error env 2 2 4000 [1000, 2000] e2 h2 (by decide)]
  norm_num
  rw [show (2 : Nat) = 1 + 1 from rfl,
    backoffLoop_step_error env 1 3 8000 [1000, 2000, 4000] e3 h3 (by decide)]
  norm_num

/-- The retry loop treats every failure alike: traces with the same
success/failure pattern sleep, count and succeed identically. -/
lemma backoffLoop_pattern (env1 env2 : Nat → AttemptResp)
    (hpat : ∀ i, isOkB (attemptEval (env1 i)) = isOkB (attemptEval (env2 i))) :
    ∀ (r attempt d : Nat) (s : List Nat),
      (backoffLoop env1 r attempt d s).sleeps =
          (backoffLoop env2 r attempt d s).sleeps ∧
        (backoffLoop env1 r attempt d s).attemptsMade =
          (backoffLoop env2 r attempt d s).attemptsMade ∧
        isOkB (backoffLoop env1 r attempt d s).result =
          isOkB (backoffLoop env2 r attempt d s).result := by
  intro r
  induction r with
  | zero => intro attempt d s; simp [backoffLoop, isOkB]
  | succ n ih =>
    intro attempt d s
    have hp := hpat attempt
    rw [backoffLoop, backoffLoop]
    cases h1 : attemptEval (env1 attempt) with
    | ok t1 =>
      cases h2 : attemptEval (env2 attempt) with
      | ok t2 => simp [isOkB]
      | error e2 => rw [h1, h2] at hp; simp [isOkB] at hp
    | error e1 =>
      cases h2 : attemptEval (env2 attempt) with
      | ok t2 => rw [h1, h2] at hp; simp [isOkB] at hp
      | error e2 =>
        simp only
        split
        · exact ih (attempt + 1) (d * 2) (s ++ [d])
        · simp [isOkB]

/-! ## Helper lemmas about the cache key and validation -/

lemma cons_sep_inj {α : Type} (sep : α) :
    ∀ (x x' y y' : List α), sep ∉ x → sep ∉ x' →
      x ++ sep :: y = x' ++ sep :: y' → x = x' ∧ y = y' := by
  intro x
  induction x with
  | nil =>
    intro x' y y' _ hx' heq
    cases x' with
    | nil => simpa using heq
    | cons h t =>
      simp at heq
      exact absurd (List.mem_cons_self h t) (heq.1 ▸ hx')
  | cons h t ih =>
    intro x' y y' hx hx' heq
    cases x' with
    | nil =>
      simp at heq
      exact absurd (List.mem_cons_self h t) (heq.1 ▸ hx)
    | cons h' t' =>
      simp at heq
      obtain ⟨rfl, heq'⟩ := heq
      have hx2 : sep ∉ t := fun hm => hx (List.mem_cons_of_mem h hm)
      have hx'2 : sep ∉ t' := fun hm => hx' (List.mem_cons_of_mem h hm)
      obtain ⟨rfl, rfl⟩ := ih t' y y' hx2 hx'2 heq'
      exact ⟨rfl, rfl⟩

lemma append_sep_inj {α : Type} (sep : α) (a c b d : List α)
    (hb : sep ∉ b) (hd : sep ∉ d)
    (h : a ++ sep :: b = c ++ sep :: d) : a = c ∧ b = d := by
  have h' : b.reverse ++ sep :: a.reverse = d.reverse ++ sep :: c.reverse := by
    have hr := congrArg List.reverse h
    simpa [List.reverse_append] using hr
  obtain ⟨h1, h2⟩ := cons_sep_inj sep b.reverse d.reverse a.reverse c.reverse
    (by simpa using hb) (by simpa using hd) h'
  exact ⟨List.reverse_injective h2, List.reverse_injective h1⟩

/-- The cache key splits uniquely at the last bar, so it is injective as
long as neither target language contains a bar. -/
lemma cacheKey_inj (t1 l1 t2 l2 : String)
    (h1 : '|' ∉ l1.data) (h2 : '|' ∉ l2.data)
    (hk : cacheKey t1 l1 = cacheKey t2 l2) : t1 = t2 ∧ l1 = l2 := by
  have hd := congrArg String.data hk
  simp only [cacheKey, String.data_append, List.append_assoc] at hd
  have hd' : t1.data ++ '|' :: l1.data = t2.data ++ '|' :: l2.data := by
    have := List.append_cancel_left hd
    simpa using this
  obtain ⟨ht, hl⟩ := append_sep_inj '|' t1.data t2.data l1.data l2.data h1 h2 hd'
  exact ⟨String.ext ht, String.ext hl⟩

/-- Whatever `validateInput` accepts has a well-formed target language and
a non-empty text. -/
lemma validateInput_ok_shape (b : Option RequestBody) (t l : String)
    (h : validateInput b = .ok (t, l)) :
    langFormatTest l = true ∧ ¬(t = "") := by
  cases b with
  | none => simp [validateInput] at h
  | some d =>
    simp only [validateInput] at h
    by_cases c1 : MAX_TEXT_LENGTH < jsLength (jsTrim (d.text.getD ""))
    · simp [c1] at h
    · by_cases c2 : jsTrim (d.text.getD "") = ""
      · simp [c1, c2, jsLength, MAX_TEXT_LENGTH] at h
      · by_cases c3 : jsTrim (d.target_lang.getD "") = ""
        · simp [c1, c2, c3] at h
        · cases c4 : langFormatTest (jsTrim (d.target_lang.getD "")) with
          | false => simp [c1, c2, c3, c4] at h
          | true =>
            simp [c1, c2, c3, c4] at h
            obtain ⟨rfl, rfl⟩ := h
            exact ⟨c4, c2⟩

lemma no_bar_of_langFormatTest (l : String) (h : langFormatTest l = true) :
    '|' ∉ l.data := by
  intro hmem
  simp only [langFormatTest, Bool.and_eq_true, List.all_eq_true] at h
  have hc := h.2 '|' hmem
  exact absurd hc (by decide)

/-- On upstream success `translateUncached` caches best-effort and returns
the generated result. -/
lemma translateUncached_ok (text lang : String) (env : PipelineEnv)
    (st : String) (ra : Bool) (t : String)
    (h : (callGroqApiWithBackoff env.upstream).result = .ok t) :
    translateUncached text lang env st ra =
      { cacheReadAttempted := ra
        setExCalls :=
          if env.redisAvailable then
            [(cacheKey text lang, CACHE_EXPIRY_SECONDS,
              ⟨getSourceLanguage env.francOutcome, t, env.now, GROQ_MODEL⟩)]
          else []
        cacheWriteFailed := env.redisAvailable && env.cacheWrite = .err
        upstreamAttempts := (callGroqApiWithBackoff env.upstream).attemptsMade
        sleeps := (callGroqApiWithBackoff env.upstream).sleeps
        result := .ok ⟨getSourceLanguage env.francOutcome, lang, t, st⟩ } := by
  simp only [translateUncached]
  rw [h]

/-- On upstream failure `translateUncached` reclassifies and rethrows. -/
lemma translateUncached_err (text lang : String) (env : PipelineEnv)
    (st : String) (ra : Bool) (e : UpstreamErr)
    (h : (callGroqApiWithBackoff env.upstream).result = .error e) :
    translateUncached text lang env st ra =
      { cacheReadAttempted := ra
        setExCalls := []
        cacheWriteFailed := false
        upstreamAttempts := (callGroqApiWithBackoff env.upstream).attemptsMade
        sleeps := (callGroqApiWithBackoff env.upstream).sleeps
        result := .error (classifyUpstreamError e) } := by
  simp only [translateUncached]
  rw [h]

/-- C1: the upstream translator client makes at most `MAX_RETRIES = 5`
attempts; when attempts 1-4 all fail it has slept exactly 1000, 2000,
4000 and 8000 ms between attempts (15000 ms ≥ 15 s in total); if attempt
5 then succeeds the successful text is returned with no error, and if
attempt 5 also fails the call fails with that last error itself, never
with the generic exhaustion error. -/
theorem claim_C1_retry_backoff (env : Nat → AttemptResp)
    (hfail : ∀ i, i < 4 → ∃ e, attemptEval (env i) = .error e) :
    (∀ env2 : Nat → AttemptResp,
      (callGroqApiWithBackoff env2).attemptsMade ≤ MAX_RETRIES) ∧
    (callGroqApiWithBackoff env).sleeps = [1000, 2000, 4000, 8000] ∧
    (callGroqApiWithBackoff env).sleeps.sum = 15000 ∧
    (callGroqApiWithBackoff env).attemptsMade = 5 ∧
    (∀ t, attemptEval (env 4) = .ok t →
      (callGroqApiWithBackoff env).result = .ok t) ∧
    ∀ e, attemptEval (env 4) = .error e →
      (callGroqApiWithBackoff env).result = .error e := by
  have hrun := backoff_four_failures env hfail
  have hb : ∀ env2 : Nat → AttemptResp,
      (callGroqApiWithBackoff env2).attemptsMade ≤ MAX_RETRIES := by
    intro env2
    have h := backoffLoop_attemptsMade_le env2 MAX_RETRIES 0 BASE_DELAY []
    simpa [callGroqApiWithBackoff] using h
  cases h4 : attemptEval (env 4) with
  | ok t =>
    have hc : callGroqApiWithBackoff env =
        ⟨5, [1000, 2000, 4000, 8000], .ok t⟩ := by
      rw [hrun, show (1 : Nat) = 0 + 1 from rfl,
        backoffLoop_step_ok env 0 4 16000 [1000, 2000, 4000, 8000] t h4]
    refine ⟨hb, by rw [hc], by rw [hc]; rfl, by rw [hc], ?_, ?_⟩
    · intro t' ht'
      obtain rfl : t = t' := by simpa using ht'
      rw [hc]
    · intro e he
      simp at he
  | error e =>
    have hc : callGroqApiWithBackoff env =
        ⟨5, [1000, 2000, 4000, 8000], .error e⟩ := by
      rw [hrun, show (1 : Nat) = 0 + 1 from rfl,
        backoffLoop_last_error env 0 4 16000 [1000, 2000, 4000, 8000] e h4
          (by decide)]
    refine ⟨hb, by rw [hc], by rw [hc]; rfl, by rw [hc], ?_, ?_⟩
    · intro t' ht'
      simp at ht'
    · intro e' he'
      obtain rfl : e = e' := by simpa using he'
      rw [hc]

/-- Witness for C1 at a concrete run: four HTTP 500 failures followed by
a successful fifth attempt. -/
theorem claim_C1_retry_backoff_witness :
    (callGroqApiWithBackoff (fun i =>
      if i < 4 then AttemptResp.httpErr 500
      else AttemptResp.ok (some ["hola"]))).sleeps = [1000, 2000, 4000, 8000] ∧
    (callGroqApiWithBackoff (fun i =>
      if i < 4 then AttemptResp.httpErr 500
      else AttemptResp.ok (some ["hola"]))).sleeps.sum = 15000 ∧
    (callGroqApiWithBackoff (fun i =>
      if i < 4 then AttemptResp.httpErr 500
      else AttemptResp.ok (some ["hola"]))).result = .ok "hola" := by
  have h := claim_C1_retry_backoff
    (fun i => if i < 4 then AttemptResp.httpErr 500
      else AttemptResp.ok (some ["hola"]))
    (fun i hi => ⟨.httpError 500, by simp [hi, attemptEval]⟩)
  exact ⟨h.2.1, h.2.2.1, h.2.2.2.2.1 "hola" (by decide)⟩

/-- C5 counterexample: the response whose choices are an empty-content
first choice followed by a non-empty one contains a choice with non-empty
post-trim content, yet `attemptEval` rejects it with the
empty-translation error, because the code only reads `choices[0]`. -/
theorem claim_C5_counterexample :
    specContainsNonEmptyChoice (.ok (some ["", "hola"])) = true ∧
    attemptEval (.ok (some ["", "hola"])) = .error .emptyTranslation := by
  decide

/-- C5 amended: a response is accepted iff it has at least one choice and
the FIRST choice's message content is non-empty after trimming, in which
case that trimmed content is returned; and every failure kind takes the
identical retry path: runs whose attempts have the same success pattern
sleep the same delays, make the same number of attempts and succeed
together — empty-result failures are not terminal. -/
theorem claim_C5_first_choice_and_uniform_retry :
    (∀ r : AttemptResp,
      (∃ t, attemptEval r = .ok t) ↔
        ∃ c cs, r = .ok (some (c :: cs)) ∧ ¬(jsTrim c = "")) ∧
    (∀ (c : String) (cs : List String), ¬(jsTrim c = "") →
      attemptEval (.ok (some (c :: cs))) = .ok (jsTrim c)) ∧
    ∀ env1 env2 : Nat → AttemptResp,
      (∀ i, isOkB (attemptEval (env1 i)) = isOkB (attemptEval (env2 i))) →
      (callGroqApiWithBackoff env1).sleeps =
          (callGroqApiWithBackoff env2).sleeps ∧
        (callGroqApiWithBackoff env1).attemptsMade =
          (callGroqApiWithBackoff env2).attemptsMade ∧
        isOkB (callGroqApiWithBackoff env1).result =
          isOkB (callGroqApiWithBackoff env2).result := by
  refine ⟨?_, ?_, ?_⟩
  · intro r
    constructor
    · rintro ⟨t, ht⟩
      cases r with
      | httpErr s => simp [attemptEval] at ht
      | ok choices =>
        cases choices with
        | none => simp [attemptEval] at ht
        | some cs =>
          cases cs with
          | nil => simp [attemptEval] at ht
          | cons c rest =>
            by_cases hc : jsTrim c = ""
            · simp [attemptEval, hc] at ht
            · exact ⟨c, rest, rfl, hc⟩
    · rintro ⟨c, cs, rfl, hc⟩
      exact ⟨jsTrim c, by simp [attemptEval, hc]⟩
  · intro c cs hc
    simp [attemptEval, hc]
  · intro env1 env2 hpat
    exact backoffLoop_pattern env1 env2 hpat MAX_RETRIES 0 BASE_DELAY []

/-- Witness for C5 at concrete runs: a run of five HTTP 503 failures and
a run of five empty-translation failures retry identically. -/
theorem claim_C5_first_choice_and_uniform_retry_witness :
    (callGroqApiWithBackoff (fun _ => AttemptResp.httpErr 503)).sleeps =
        (callGroqApiWithBackoff (fun _ => AttemptResp.ok (some [""]))).sleeps ∧
      (callGroqApiWithBackoff (fun _ => AttemptResp.httpErr 503)).attemptsMade =
        (callGroqApiWithBackoff (fun _ =>
          AttemptResp.ok (some [""]))).attemptsMade ∧
      isOkB (callGroqApiWithBackoff (fun _ => AttemptResp.httpErr 503)).result =
        isOkB (callGroqApiWithBackoff (fun _ =>
          AttemptResp.ok (some [""]))).result := by
  exact claim_C5_first_choice_and_uniform_retry.2.2
    (fun _ => AttemptResp.httpErr 503) (fun _ => AttemptResp.ok (some [""]))
    (fun _ => rfl)

/-- C2: with `forceRefresh = true` the pipeline never attempts a cache
read; any success it returns has status "regenerated" (never "cached" or
"generated"); and on upstream success, with the cache client available,
it issues exactly one cache write storing the fresh entry under the
derived key with the fixed 7-day TTL. -/
theorem claim_C2_force_refresh (text lang : String) (env : PipelineEnv) :
    (processTranslation text lang env true).cacheReadAttempted = false ∧
    (∀ res, (processTranslation text lang env true).result = .ok res →
      res.status = "regenerated") ∧
    (env.redisAvailable = true →
      ∀ t, (callGroqApiWithBackoff env.upstream).result = .ok t →
        (processTranslation text lang env true).setExCalls =
          [(cacheKey text lang, CACHE_EXPIRY_SECONDS,
            ⟨getSourceLanguage env.francOutcome, t, env.now, GROQ_MODEL⟩)]) := by
  have hpt : processTranslation text lang env true =
      translateUncached text lang env "regenerated" false := by
    simp [processTranslation]
  refine ⟨?_, ?_, ?_⟩
  · rw [hpt]
    cases h : (callGroqApiWithBackoff env.upstream).result with
    | ok t => rw [translateUncached_ok text lang env _ _ t h]
    | error e => rw [translateUncached_err text lang env _ _ e h]
  · intro res hres
    rw [hpt] at hres
    cases h : (callGroqApiWithBackoff env.upstream).result with
    | ok t =>
      rw [translateUncached_ok text lang env _ _ t h] at hres
      have hres' : TranslationResult.mk (getSourceLanguage env.francOutcome)
          lang t "regenerated" = res := by simpa using hres
      rw [← hres']
    | error e =>
      rw [translateUncached_err text lang env _ _ e h] at hres
      simp at hres
  · intro hredis t h
    rw [hpt, translateUncached_ok text lang env _ _ t h]
    simp [hredis]

/-- Witness for C2 at a concrete environment: cache available, upstream
succeeding immediately with "hola". -/
theorem claim_C2_force_refresh_witness :
    (processTranslation "Hello" "Spanish"
      ⟨true, .miss, .ok, .ok "eng", fun _ => .ok (some ["hola"]), 42⟩
      true).cacheReadAttempted = false ∧
    (processTranslation "Hello" "Spanish"
      ⟨true, .miss, .ok, .ok "eng", fun _ => .ok (some ["hola"]), 42⟩
      true).setExCalls =
      [(cacheKey "Hello" "Spanish", CACHE_EXPIRY_SECONDS,
        ⟨getSourceLanguage (.ok "eng"), "hola", 42, GROQ_MODEL⟩)] ∧
    TranslationResult.status
      ⟨getSourceLanguage (.ok "eng"), "Spanish", "hola", "regenerated"⟩ =
      "regenerated" := by
  have h := claim_C2_force_refresh "Hello" "Spanish"
    ⟨true, .miss, .ok, .ok "eng", fun _ => .ok (some ["hola"]), 42⟩
  exact ⟨h.1, h.2.2 rfl "hola" (by decide),
    h.2.1 ⟨getSourceLanguage (.ok "eng"), "Spanish", "hola", "regenerated"⟩
      (by decide)⟩

/-- C3: with `forceRefresh = false`, the client available and the cache
read returning an entry, the pipeline answers from the cache: status
"cached", text and source language from the cached entry (the fresh
language hint is ignored), target language as requested, and neither an
upstream attempt nor a cache write happens. -/
theorem claim_C3_cache_hit (text lang : String) (env : PipelineEnv)
    (entry : CacheEntry) (hredis : env.redisAvailable = true)
    (hhit : env.cacheRead = .hit entry) :
    processTranslation text lang env false =
      { cacheReadAttempted := true
        setExCalls := []
        cacheWriteFailed := false
        upstreamAttempts := 0
        sleeps := []
        result := .ok ⟨entry.source_language, lang,
          entry.translated_text, "cached"⟩ } := by
  simp [processTranslation, hredis, hhit]

/-- Witness for C3 at a concrete environment whose cache holds an entry
with source language "FR" while the fresh hint would be "EN". -/
theorem claim_C3_cache_hit_witness :
    processTranslation "Hello" "Spanish"
      ⟨true, .hit ⟨"FR", "Bonjour", 7, "m"⟩, .ok, .ok "eng",
        fun _ => .httpErr 500, 42⟩ false =
      { cacheReadAttempted := true
        setExCalls := []
        cacheWriteFailed := false
        upstreamAttempts := 0
        sleeps := []
        result := .ok ⟨"FR", "Spanish", "Bonjour", "cached"⟩ } := by
  exact claim_C3_cache_hit "Hello" "Spanish"
    ⟨true, .hit ⟨"FR", "Bonjour", 7, "m"⟩, .ok, .ok "eng",
      fun _ => .httpErr 500, 42⟩
    ⟨"FR", "Bonjour", 7, "m"⟩ rfl rfl

/-- When the pipeline reaches the upstream path (cache unavailable, read
error or miss) and the upstream call succeeds, the result is the
generated one, whatever the cache write does. -/
lemma processTranslation_miss_result (text lang : String) (e : PipelineEnv)
    (t : String)
    (hmiss : e.redisAvailable = false ∨ e.cacheRead = .err ∨
      e.cacheRead = .miss)
    (hup : (callGroqApiWithBackoff e.upstream).result = .ok t) :
    (processTranslation text lang e false).result =
      .ok ⟨getSourceLanguage e.francOutcome, lang, t, "generated"⟩ := by
  have hun : ∀ ra : Bool,
      (translateUncached text lang e "generated" ra).result =
        .ok ⟨getSourceLanguage e.francOutcome, lang, t, "generated"⟩ := by
    intro ra
    rw [translateUncached_ok text lang e "generated" ra t hup]
  rcases hmiss with hm | hm | hm
  · have hpt : processTranslation text lang e false =
        translateUncached text lang e "generated" false := by
      simp [processTranslation, hm]
    rw [hpt]; exact hun false
  · cases hr : e.redisAvailable with
    | false =>
      have hpt : processTranslation text lang e false =
          translateUncached text lang e "generated" false := by
        simp [processTranslation, hr]
      rw [hpt]; exact hun false
    | true =>
      have hpt : processTranslation text lang e false =
          translateUncached text lang e "generated" true := by
        simp [processTranslation, hr, hm]
      rw [hpt]; exact hun true
  · cases hr : e.redisAvailable with
    | false =>
      have hpt : processTranslation text lang e false =
          translateUncached text lang e "generated" false := by
        simp [processTranslation, hr]
      rw [hpt]; exact hun false
    | true =>
      have hpt : processTranslation text lang e false =
          translateUncached text lang e "generated" true := by
        simp [processTranslation, hr, hm]
      rw [hpt]; exact hun true

/-- C4: cache-store failures are never surfaced: when the client is
unavailable or the cache read errors (or misses) and the upstream call
succeeds, `processTranslation` returns the same successful "generated"
result — including when additionally the cache write raises. -/
theorem claim_C4_cache_errors_swallowed (text lang : String)
    (env : PipelineEnv)
    (hmiss : env.redisAvailable = false ∨ env.cacheRead = .err ∨
      env.cacheRead = .miss)
    (t : String)
    (hup : (callGroqApiWithBackoff env.upstream).result = .ok t) :
    (processTranslation text lang env false).result =
      .ok ⟨getSourceLanguage env.francOutcome, lang, t, "generated"⟩ ∧
    (processTranslation text lang
        { env with cacheWrite := .err } false).result =
      .ok ⟨getSourceLanguage env.francOutcome, lang, t, "generated"⟩ := by
  exact ⟨processTranslation_miss_result text lang env t hmiss hup,
    processTranslation_miss_result text lang { env with cacheWrite := .err }
      t hmiss hup⟩

/-- Witness for C4 at a concrete environment: cache read erroring, cache
write erroring, upstream succeeding immediately. -/
theorem claim_C4_cache_errors_swallowed_witness :
    (processTranslation "Hello" "Spanish"
      ⟨true, .err, .err, .ok "eng", fun _ => .ok (some ["hola"]), 42⟩
      false).result =
      .ok ⟨getSourceLanguage (.ok "eng"), "Spanish", "hola", "generated"⟩ := by
  exact (claim_C4_cache_errors_swallowed "Hello" "Spanish"
    ⟨true, .err, .err, .ok "eng", fun _ => .ok (some ["hola"]), 42⟩
    (Or.inr (Or.inl rfl)) "hola" (by decide)).1

/-- C6 counterexample (negation of the claim): there are NO two distinct
validated pairs with the same cache key.  A validated target language
matches the letters/spaces/hyphens regex, so it cannot contain the bar
separator, and the key therefore splits uniquely at its last bar. -/
theorem claim_C6_counterexample :
    ¬ ∃ (b1 b2 : Option RequestBody) (t1 l1 t2 l2 : String),
        validateInput b1 = .ok (t1, l1) ∧ validateInput b2 = .ok (t2, l2) ∧
        ¬(t1 = t2 ∧ l1 = l2) ∧ cacheKey t1 l1 = cacheKey t2 l2 := by
  rintro ⟨b1, b2, t1, l1, t2, l2, hv1, hv2, hne, hk⟩
  have hf1 := (validateInput_ok_shape b1 t1 l1 hv1).1
  have hf2 := (validateInput_ok_shape b2 t2 l2 hv2).1
  exact hne (cacheKey_inj t1 l1 t2 l2 (no_bar_of_langFormatTest l1 hf1)
    (no_bar_of_langFormatTest l2 hf2) hk)

/-- C6 amended: the cache key derivation IS injective on validated
inputs.  Validation forces the target language through the
letters/spaces/hyphens regex, so it never contains the bar character, and
text and target language are recoverable from the key by splitting at its
last bar; equal keys therefore mean equal pairs, and a translate call can
only be answered from the entry stored for its own pair. -/
theorem claim_C6_key_injective (b1 b2 : Option RequestBody)
    (t1 l1 t2 l2 : String)
    (hv1 : validateInput b1 = .ok (t1, l1))
    (hv2 : validateInput b2 = .ok (t2, l2))
    (hk : cacheKey t1 l1 = cacheKey t2 l2) : t1 = t2 ∧ l1 = l2 := by
  have hf1 := (validateInput_ok_shape b1 t1 l1 hv1).1
  have hf2 := (validateInput_ok_shape b2 t2 l2 hv2).1
  exact cacheKey_inj t1 l1 t2 l2 (no_bar_of_langFormatTest l1 hf1)
    (no_bar_of_langFormatTest l2 hf2) hk

/-- Witness for C6 at concrete validated requests: two bodies that both
validate to the pair ("a|b", "c") — the text itself containing a bar —
and whose keys coincide. -/
theorem claim_C6_key_injective_witness : "a|b" = "a|b" ∧ "c" = "c" := by
  exact claim_C6_key_injective (some ⟨some "a|b", some "c"⟩)
    (some ⟨some " a|b ", some " c "⟩) "a|b" "c" "a|b" "c"
    (by decide) (by decide) rfl

/-- C7: a body whose text trims to exactly 2000 UTF-16 units is never
rejected for length, while one trimming to 2001 units fails with the 400
text-too-long error whose details report the observed length 2001. -/
theorem claim_C7_length_boundary (d : RequestBody) :
    (jsLength (jsTrim (d.text.getD "")) = 2000 →
      isTooLongError (validateInput (some d)) = false) ∧
    (jsLength (jsTrim (d.text.getD "")) = 2001 →
      validateInput (some d) =
        .error ⟨"Text too long. Maximum 2000 characters.", 400,
                some "Text length: 2001 characters"⟩) := by
  constructor
  · intro h2000
    have hlt : ¬ MAX_TEXT_LENGTH < jsLength (jsTrim (d.text.getD "")) := by
      rw [h2000]; decide
    have hne : ¬ jsTrim (d.text.getD "") = "" := by
      intro hcon
      rw [hcon] at h2000
      exact absurd h2000 (by decide)
    simp only [validateInput]
    rw [if_neg hlt, if_neg hne]
    by_cases c3 : jsTrim (d.target_lang.getD "") = ""
    · rw [if_pos c3]; decide
    · rw [if_neg c3]
      cases c4 : langFormatTest (jsTrim (d.target_lang.getD "")) with
      | false => simp [c4, isTooLongError]
      | true => simp [c4, isTooLongError]
  · intro h2001
    have hgt : MAX_TEXT_LENGTH < jsLength (jsTrim (d.text.getD "")) := by
      rw [h2001]; decide
    simp only [validateInput]
    rw [if_pos hgt, h2001]
    rfl

/-- A list of non-whitespace characters survives `dropWhile`. -/
lemma dropWhile_ws_eq_self (l : List Char)
    (h : ∀ c ∈ l, jsWhitespaceChar c = false) :
    l.dropWhile jsWhitespaceChar = l := by
  cases l with
  | nil => rfl
  | cons a t =>
    rw [List.dropWhile_cons, h a (List.mem_cons_self a t)]
    simp

/-- The letter-only text of n letters trims to itself and has JavaScript
length n. -/
lemma jsLength_trim_replicate_a (n : Nat) :
    jsLength (jsTrim (String.mk (List.replicate n 'a'))) = n := by
  have hall : ∀ c ∈ List.replicate n 'a', jsWhitespaceChar c = false := by
    intro c hc
    rw [List.eq_of_mem_replicate hc]
    decide
  have hdrop := dropWhile_ws_eq_self (List.replicate n 'a') hall
  have htrim : jsTrim (String.mk (List.replicate n 'a')) =
      String.mk (List.replicate n 'a') := by
    simp [jsTrim, hdrop, List.reverse_replicate]
  rw [htrim]
  simp [jsLength, List.map_replicate]

/-- Witness for C7 at concrete texts of 2000 and 2001 letters. -/
theorem claim_C7_length_boundary_witness :
    isTooLongError (validateInput (some
      ⟨some (String.mk (List.replicate 2000 'a')), some "Spanish"⟩)) =
      false ∧
    validateInput (some
      ⟨some (String.mk (List.replicate 2001 'a')), some "Spanish"⟩) =
      .error ⟨"Text too long. Maximum 2000 characters.", 400,
              some "Text length: 2001 characters"⟩ := by
  refine ⟨(claim_C7_length_boundary
      ⟨some (String.mk (List.replicate 2000 'a')), some "Spanish"⟩).1 ?_,
    (claim_C7_length_boundary
      ⟨some (String.mk (List.replicate 2001 'a')), some "Spanish"⟩).2 ?_⟩
  · exact jsLength_trim_replicate_a 2000
  · exact jsLength_trim_replicate_a 2001

/-- C8: with an empty upstream API key both POST routes fail before any
cache read, cache write or upstream attempt, with the
configuration error that the middleware maps to HTTP 500. -/
theorem claim_C8_missing_api_key (body : Option RequestBody)
    (env : PipelineEnv) :
    postApiTranslate "" body env =
      { cacheReadAttempted := false, setExCalls := [],
        cacheWriteFailed := false, upstreamAttempts := 0, sleeps := [],
        result := .error ⟨"API key not configured", 500, none⟩ } ∧
    postApiRetranslate "" body env =
      { cacheReadAttempted := false, setExCalls := [],
        cacheWriteFailed := false, upstreamAttempts := 0, sleeps := [],
        result := .error ⟨"API key not configured", 500, none⟩ } ∧
    responseStatus (postApiTranslate "" body env) = 500 ∧
    responseStatus (postApiRetranslate "" body env) = 500 := by
  exact ⟨rfl, rfl, rfl, rfl⟩

/-- C9 counterexample: the health body at a concrete environment has no
field named "cache_backend_status" and none named "upstream_configured" —
the code emits "redis" and "groq_api" instead. -/
theorem claim_C9_counterexample :
    (healthResponse false false "" 0).1 = 200 ∧
    hasField (healthResponse false false "" 0).2 "cache_backend_status" =
      false ∧
    hasField (healthResponse false false "" 0).2 "upstream_configured" =
      false := by
  decide

/-- C9 amended: GET /api/health always returns 200 with a JSON body
containing the fields status, redis, groq_api, max_text_length,
rate_limit and timestamp (the cache-backend field is named "redis" and
the upstream-configured field "groq_api"). -/
theorem claim_C9_health_fields (redisAvailable pingOk : Bool)
    (apiKey : String) (now : Nat) :
    (healthResponse redisAvailable pingOk apiKey now).1 = 200 ∧
    hasField (healthResponse redisAvailable pingOk apiKey now).2
      "status" = true ∧
    hasField (healthResponse redisAvailable pingOk apiKey now).2
      "redis" = true ∧
    hasField (healthResponse redisAvailable pingOk apiKey now).2
      "groq_api" = true ∧
    hasField (healthResponse redisAvailable pingOk apiKey now).2
      "max_text_length" = true ∧
    hasField (healthResponse redisAvailable pingOk apiKey now).2
      "rate_limit" = true ∧
    hasField (healthResponse redisAvailable pingOk apiKey now).2
      "timestamp" = true := by
  refine ⟨rfl, ?_, ?_, ?_, ?_, ?_, ?_⟩ <;>
    simp [healthResponse, healthBody, hasField]

/-- C10: a body whose text trims to the empty string always fails with
the empty-text validation error and never with the too-long error. -/
theorem claim_C10_empty_text (d : RequestBody)
    (hempty : jsTrim (d.text.getD "") = "") :
    validateInput (some d) =
      .error ⟨"Text cannot be empty", 400, none⟩ ∧
    isTooLongError (validateInput (some d)) = false := by
  have hlen : ¬ MAX_TEXT_LENGTH < jsLength (jsTrim (d.text.getD "")) := by
    rw [hempty]; decide
  have hval : validateInput (some d) =
      .error ⟨"Text cannot be empty", 400, none⟩ := by
    simp only [validateInput]
    rw [if_neg hlen, if_pos hempty]
  exact ⟨hval, by rw [hval]; decide⟩

/-- Witness for C10 at a concrete whitespace-only text. -/
theorem claim_C10_empty_text_witness :
    validateInput (some ⟨some "   ", some "Spanish"⟩) =
      .error ⟨"Text cannot be empty", 400, none⟩ ∧
    isTooLongError (validateInput (some ⟨some "   ", some "Spanish"⟩)) =
      false := by
  exact claim_C10_empty_text ⟨some "   ", some "Spanish"⟩ (by decide)
